import Mathlib

/-!
# Verification of the date-window gallery logic of `src/js/script.js`

Shallow embedding of the NASA-APOD gallery viewer script.  The script's
date handling (`new Date("YYYY-MM-DD")`, `setDate`, `toISOString`) is
modelled over the proleptic Gregorian calendar with years `0 ≤ y ≤ 9999`
(the range expressible in the plain `YYYY-MM-DD` date-string format that
the script produces and consumes; ECMAScript parses such strings as UTC
midnight, so all arithmetic is pure calendar-day arithmetic).
-/

namespace APOD

/-- `const GALLERY_DAYS = 9;` (script.js line 2). -/
def GALLERY_DAYS : Nat := 9

/-- A civil (proleptic Gregorian) calendar date, fields as plain naturals.
`y` is the year (0–9999 in the `YYYY-MM-DD` string format), `m` the month
(1–12), `d` the day of month (1–31). -/
structure CivilDate where
  y : Nat
  m : Nat
  d : Nat
deriving DecidableEq, Repr

/-- Gregorian leap-year rule, as used by ECMAScript `Date`. -/
def isLeapYear (y : Nat) : Bool :=
  (y % 4 == 0 && y % 100 != 0) || y % 400 == 0

/-- Number of days in month `m` (1–12) of year `y`. -/
def daysInMonth (y : Nat) (m : Nat) : Nat :=
  match m with
  | 1 => 31
  | 2 => if isLeapYear y then 29 else 28
  | 3 => 31
  | 4 => 30
  | 5 => 31
  | 6 => 30
  | 7 => 31
  | 8 => 31
  | 9 => 30
  | 10 => 31
  | 11 => 30
  | 12 => 31
  | _ => 0

/-- Days in the months `1, …, m-1` of year `y` (cumulative month table;
`leapDay y` is the 29 February adjustment). -/
def leapDay (y : Nat) : Nat := if isLeapYear y then 1 else 0

def daysBeforeMonth (y : Nat) (m : Nat) : Nat :=
  match m with
  | 1 => 0
  | 2 => 31
  | 3 => 59 + leapDay y
  | 4 => 90 + leapDay y
  | 5 => 120 + leapDay y
  | 6 => 151 + leapDay y
  | 7 => 181 + leapDay y
  | 8 => 212 + leapDay y
  | 9 => 243 + leapDay y
  | 10 => 273 + leapDay y
  | 11 => 304 + leapDay y
  | 12 => 334 + leapDay y
  | _ => 0

/-- Days in the years `0, …, y-1` (day `0` is 0000-01-01). -/
def daysBeforeYear (y : Nat) : Nat :=
  365 * y + (y + 3) / 4 - (y + 99) / 100 + (y + 399) / 400

/-- Rata-die style day number of a civil date, counted from 0000-01-01. -/
def toDayNumber (dt : CivilDate) : Nat :=
  daysBeforeYear dt.y + daysBeforeMonth dt.y dt.m + (dt.d - 1)

/-- Validity of a civil date: month 1–12, day within the month. -/
def Valid (dt : CivilDate) : Prop :=
  1 ≤ dt.m ∧ dt.m ≤ 12 ∧ 1 ≤ dt.d ∧ dt.d ≤ daysInMonth dt.y dt.m

instance (dt : CivilDate) : Decidable (Valid dt) := by
  unfold Valid; infer_instance

/-- The calendar day immediately before `dt` (partial at 0000-01-01,
where the script's `Date` would move into negative years: the claims are
stated above day number 8, where this case never arises). -/
def prevDay (dt : CivilDate) : CivilDate :=
  if 2 ≤ dt.d then ⟨dt.y, dt.m, dt.d - 1⟩
  else if 2 ≤ dt.m then ⟨dt.y, dt.m - 1, daysInMonth dt.y (dt.m - 1)⟩
  else ⟨dt.y - 1, 12, 31⟩

/-- `n` calendar days before `dt`.  Models the timestamp arithmetic of
`endDate.setDate(endDate.getDate() - n)` on a UTC-midnight `Date`. -/
def subDays (dt : CivilDate) : Nat → CivilDate
  | 0 => dt
  | n + 1 => subDays (prevDay dt) n

/-- Decimal digit test on a character (codepoints 48–57). -/
def isDigitChar (c : Char) : Bool :=
  48 ≤ c.toNat && c.toNat ≤ 57

/-- Numeric value of a decimal digit character. -/
def digitVal (c : Char) : Nat := c.toNat - '0'.toNat

/-- Strict parser for the `YYYY-MM-DD` date-string format (the format the
date `input` supplies and `toISOString().split('T')[0]` produces).
`none` models an Invalid Date (`NaN` timestamp) in ECMAScript. -/
def parseDate (s : String) : Option CivilDate :=
  match s.toList with
  | [y1, y2, y3, y4, h1, m1, m2, h2, d1, d2] =>
    if isDigitChar y1 && isDigitChar y2 && isDigitChar y3 && isDigitChar y4 &&
       h1 == '-' && isDigitChar m1 && isDigitChar m2 && h2 == '-' &&
       isDigitChar d1 && isDigitChar d2 then
      if 1 ≤ digitVal m1 * 10 + digitVal m2 &&
         digitVal m1 * 10 + digitVal m2 ≤ 12 &&
         1 ≤ digitVal d1 * 10 + digitVal d2 &&
         digitVal d1 * 10 + digitVal d2 ≤
           daysInMonth (((digitVal y1 * 10 + digitVal y2) * 10 + digitVal y3) * 10 + digitVal y4)
             (digitVal m1 * 10 + digitVal m2) then
        some ⟨((digitVal y1 * 10 + digitVal y2) * 10 + digitVal y3) * 10 + digitVal y4,
          digitVal m1 * 10 + digitVal m2, digitVal d1 * 10 + digitVal d2⟩
      else none
    else none
  | _ => none

/-- Two-digit zero-padded decimal rendering (for months and days). -/
def pad2 (n : Nat) : List Char :=
  [Nat.digitChar (n / 10 % 10), Nat.digitChar (n % 10)]

/-- Four-digit zero-padded decimal rendering (for years ≤ 9999). -/
def pad4 (n : Nat) : List Char :=
  [Nat.digitChar (n / 1000 % 10), Nat.digitChar (n / 100 % 10),
   Nat.digitChar (n / 10 % 10), Nat.digitChar (n % 10)]

/-- The `YYYY-MM-DD` rendering of a civil date, i.e. the date part of
`toISOString()` for years 0–9999. -/
def formatDate (dt : CivilDate) : String :=
  ⟨pad4 dt.y ++ '-' :: pad2 dt.m ++ '-' :: pad2 dt.d⟩

/-- `getStartDate` (script.js lines 35–40): parse the end-date string,
step back `GALLERY_DAYS - 1 = 8` calendar days, re-render as
`YYYY-MM-DD`.  `none` models the `RangeError` that `toISOString()`
throws when the input string did not parse as a date. -/
def getStartDate (endDateString : String) : Option String :=
  (parseDate endDateString).map (fun endDate =>
    formatDate (subDays endDate (GALLERY_DAYS - 1)))

/-! ## The data model: one record of the fetched JSON dataset -/

/-- One APOD record as consumed by the script.  `hdurl` and
`thumbnail_url` are optional fields in the JSON data; `none` models an
absent field (`undefined`). -/
structure Entry where
  date : String
  title : String
  explanation : String
  media_type : String
  url : String
  hdurl : Option String := none
  thumbnail_url : Option String := none
deriving DecidableEq, Repr

/-- JavaScript `a || b` for an optional string field `a`: `undefined`
(absent) and the empty string are falsy and select `b`. -/
def jsOrString (a : Option String) (b : String) : String :=
  match a with
  | none => b
  | some s => if s == "" then b else s

/-- Code-unit lexicographic comparison of character lists, as used by
the JavaScript relational operators on strings. -/
def charListLe : List Char → List Char → Bool
  | [], _ => true
  | _ :: _, [] => false
  | a :: as, b :: bs =>
    if a < b then true else if b < a then false else charListLe as bs

/-- JavaScript `a <= b` on strings (lexicographic; on the ASCII date
strings involved, code units and scalar values agree). -/
def jsStringLe (a b : String) : Bool := charListLe a.toList b.toList

/-- The timestamp (in days) that `new Date(s)` yields, used by the sort
comparator `new Date(b.date) - new Date(a.date)`.  An unparsable string
yields `NaN`, for which ECMAScript leaves the comparator-based order
unspecified; the model pins that case to `0`.  Every sorting claim
assumes the spec's data-model invariant that `date` values are
well-formed `YYYY-MM-DD` strings, under which this case never arises. -/
def dateValue (s : String) : Nat :=
  ((parseDate s).map toDayNumber).getD 0

/-- The ordering relation realised by
`.sort((a, b) => new Date(b.date) - new Date(a.date))`:
`a` may stay before `b` iff the comparator is ≤ 0, i.e. `b`'s date is
not more recent than `a`'s (descending by date). -/
def dateDesc (a b : Entry) : Prop :=
  dateValue b.date ≤ dateValue a.date

instance : DecidableRel dateDesc :=
  fun a b => Nat.decLe (dateValue b.date) (dateValue a.date)

instance : IsTotal Entry dateDesc :=
  ⟨fun a b => Nat.le_total (dateValue b.date) (dateValue a.date)⟩

instance : IsTrans Entry dateDesc :=
  ⟨fun _ _ _ h1 h2 => le_trans h2 h1⟩

/-- Lines 97–99 of script.js: filter the cache to the window
`startDateString ≤ item.date ≤ endDateString` (string comparison), then
sort descending by date.  ECMAScript requires `Array.prototype.sort` to
be stable, and a stable sort under a consistent comparator has a unique
result, so any stable sorting algorithm is an exact model; insertion
sort is used because the kernel can evaluate it on concrete data. -/
def filterAndSort (cache : List Entry) (startDateString endDateString : String) :
    List Entry :=
  List.insertionSort dateDesc
    (cache.filter (fun item =>
      jsStringLe startDateString item.date && jsStringLe item.date endDateString))

/-! ## Gallery rendering (`renderGallery`, lines 115–162) -/

/-- The media part of one gallery tile, one constructor per branch of
the `mediaHTML` computation (lines 127–148). -/
inductive TileMedia where
  /-- `"Video Content Available"` textual placeholder (line 133). -/
  | videoPlaceholder
  /-- thumbnail image plus `"Click to Play"` overlay (lines 135–139). -/
  | videoThumb (thumbnailUrl : String)
  /-- plain `<img src=url>` tile for the non-video branch (lines 144–147). -/
  | image (url : String)
deriving DecidableEq, Repr

/-- One rendered gallery tile: media markup, title and date text. -/
structure Tile where
  media : TileMedia
  title : String
  date : String
deriving DecidableEq, Repr

/-- The `mediaHTML` branch for one item:
`thumbnailUrl = item.thumbnail_url || 'placeholder'`, then the
placeholder branch when that value is the sentinel `'placeholder'`. -/
def tileMedia (item : Entry) : TileMedia :=
  if item.media_type == "video" then
    let thumbnailUrl := jsOrString item.thumbnail_url "placeholder"
    if thumbnailUrl == "placeholder" then TileMedia.videoPlaceholder
    else TileMedia.videoThumb thumbnailUrl
  else TileMedia.image item.url

/-- `renderGallery` as a pure function: one tile per item of the input,
in order, carrying the item's title and date. -/
def renderGallery (data : List Entry) : List Tile :=
  data.map (fun item => { media := tileMedia item, title := item.title, date := item.date })

/-! ## The visible UI state and `filterAndRenderGallery` -/

/-- The DOM state the script mutates: visibility classes of the loading
indicator, the gallery grid and the error banner, the error text, and
the gallery contents. -/
structure UIState where
  loadingHidden : Bool
  galleryHidden : Bool
  errorHidden : Bool
  errorText : String
  gallery : List Tile
deriving DecidableEq, Repr

/-- `updateUIState` (lines 47–54). -/
def updateUIState (isLoading : Bool) (errorMessage : Option String) (u : UIState) : UIState :=
  { u with
    loadingHidden := !isLoading
    galleryHidden := isLoading || errorMessage.isSome
    errorHidden := errorMessage.isNone
    errorText := match errorMessage with
      | some msg => msg
      | none => u.errorText }

/-- Full application state: the in-memory dataset cache `allAPODData`
(line 18) plus the visible UI state. -/
structure AppState where
  allAPODData : List Entry
  ui : UIState
deriving DecidableEq, Repr

/-- The error message of line 103. -/
def insufficientMsg (n : Nat) : String :=
  "Only found " ++ toString n ++
    " entries. The selected date range might be too far in the past or data is missing."

/-- `filterAndRenderGallery` (lines 89–109) as a state transformer.
It first shows the loading state and clears the gallery and error
banner; when `getStartDate` throws (invalid end date) the handler
aborts there (`none` branch); otherwise it either reports the
insufficient-data error or renders all filtered entries. -/
def filterAndRenderGallery (endDateString : String) (s : AppState) : AppState :=
  let u1 : UIState :=
    { updateUIState true none s.ui with gallery := [], errorHidden := true }
  match getStartDate endDateString with
  | none => { s with ui := u1 }
  | some startDateString =>
    let fd := filterAndSort s.allAPODData startDateString endDateString
    if fd.length < GALLERY_DAYS then
      { s with ui := updateUIState false (some (insufficientMsg fd.length)) u1 }
    else
      { s with ui := updateUIState false none { u1 with gallery := renderGallery fd } }

/-! ## The detail modal (`openModal` lines 170–192, `closeModal` 197–201) -/

/-- Contents of the `modal-media-container`. -/
inductive ModalMedia where
  /-- `<iframe src=url allowfullscreen>` inside a `video-container` div. -/
  | videoEmbed (url : String)
  /-- `<img src=url>`. -/
  | image (url : String)
deriving DecidableEq, Repr

/-- The modal's DOM state; `media = none` models an emptied
`modal-media-container` (`innerHTML = ''`). -/
structure ModalState where
  visible : Bool
  title : String
  date : String
  explanation : String
  media : Option ModalMedia
deriving DecidableEq, Repr

/-- `openModal`: fills title, date and explanation, then embeds the
video `url` as an iframe for `media_type === 'video'`, otherwise shows
`item.hdurl || item.url` as an image. -/
def openModal (item : Entry) : ModalState :=
  { visible := true
    title := item.title
    date := item.date
    explanation := item.explanation
    media := some (if item.media_type == "video" then ModalMedia.videoEmbed item.url
      else ModalMedia.image (jsOrString item.hdurl item.url)) }

/-- `closeModal`: hides the modal and clears the media container. -/
def closeModal (m : ModalState) : ModalState :=
  { m with visible := false, media := none }

/-! ## Concrete datasets used to exercise the claims -/

/-- An image entry on date `d` titled `t` (shape of the spec's worked
example: entries dated 2024-01-01 through 2024-01-10). -/
def windowEntry (d t : String) : Entry :=
  { date := d, title := t, explanation := "e", media_type := "image", url := "u" }

/-- Ten image entries on the ten consecutive dates 2024-01-01 … 2024-01-10. -/
def cacheTen : List Entry :=
  [windowEntry "2024-01-01" "a1", windowEntry "2024-01-02" "a2",
   windowEntry "2024-01-03" "a3", windowEntry "2024-01-04" "a4",
   windowEntry "2024-01-05" "a5", windowEntry "2024-01-06" "a6",
   windowEntry "2024-01-07" "a7", windowEntry "2024-01-08" "a8",
   windowEntry "2024-01-09" "a9", windowEntry "2024-01-10" "a10"]

/-- Ten entries all lying inside the window 2024-01-01 … 2024-01-09:
the nine consecutive dates plus a second, distinct entry on 2024-01-05. -/
def cacheDup : List Entry :=
  [windowEntry "2024-01-01" "a1", windowEntry "2024-01-02" "a2",
   windowEntry "2024-01-03" "a3", windowEntry "2024-01-04" "a4",
   windowEntry "2024-01-05" "a5", windowEntry "2024-01-06" "a6",
   windowEntry "2024-01-07" "a7", windowEntry "2024-01-08" "a8",
   windowEntry "2024-01-09" "a9", windowEntry "2024-01-05" "b5"]

/-- A blank initial UI state (everything hidden, nothing rendered). -/
def uiBlank : UIState :=
  { loadingHidden := true, galleryHidden := true, errorHidden := true,
    errorText := "", gallery := [] }

/-- A video entry whose `thumbnail_url` is present but happens to equal
the sentinel string `'placeholder'` of script.js line 129. -/
def videoSentinelEntry : Entry :=
  { date := "2024-01-09", title := "v", explanation := "e",
    media_type := "video", url := "u", hdurl := none,
    thumbnail_url := some "placeholder" }

/-- A video entry with an ordinary thumbnail URL. -/
def videoThumbEntry : Entry :=
  { date := "2024-01-09", title := "v", explanation := "e",
    media_type := "video", url := "u", hdurl := none,
    thumbnail_url := some "thumb.jpg" }

/-- An image entry whose `hdurl` is present but the empty string
(falsy for `item.hdurl || item.url`). -/
def emptyHdurlEntry : Entry :=
  { date := "2024-01-09", title := "t", explanation := "e",
    media_type := "image", url := "u.jpg", hdurl := some "",
    thumbnail_url := none }

/-- A plain video entry (no thumbnail, no hdurl). -/
def videoUrlEntry : Entry :=
  { date := "2024-01-09", title := "t", explanation := "e",
    media_type := "video", url := "v.mp4", hdurl := none,
    thumbnail_url := none }

/-! ## Lemmas about the calendar arithmetic -/

theorem isLeapYear_iff (y : Nat) :
    isLeapYear y = true ↔ (y % 4 = 0 ∧ ¬ y % 100 = 0) ∨ y % 400 = 0 := by
  simp [isLeapYear]

set_option maxHeartbeats 1600000 in
theorem daysBeforeYear_succ (y : Nat) :
    daysBeforeYear (y + 1) = daysBeforeYear y + (if isLeapYear y then 366 else 365) := by
  cases hb : isLeapYear y
  · rw [if_neg (by decide)]
    have h : ¬ ((y % 4 = 0 ∧ ¬ y % 100 = 0) ∨ y % 400 = 0) := by
      intro hcon
      rw [(isLeapYear_iff y).mpr hcon] at hb
      exact absurd hb (by decide)
    unfold daysBeforeYear
    omega
  · rw [if_pos rfl]
    have h := (isLeapYear_iff y).mp hb
    unfold daysBeforeYear
    omega

theorem daysInMonth_pos (y m : Nat) (h1 : 1 ≤ m) (h2 : m ≤ 12) :
    1 ≤ daysInMonth y m := by
  interval_cases m <;> first
    | (show (1 : Nat) ≤ 31; decide)
    | (show (1 : Nat) ≤ 30; decide)
    | (show (1 : Nat) ≤ if isLeapYear y then 29 else 28
       split <;> decide)

theorem prevDay_correct (dt : CivilDate) (hv : Valid dt) (hpos : 0 < toDayNumber dt) :
    Valid (prevDay dt) ∧ toDayNumber (prevDay dt) + 1 = toDayNumber dt := by
  obtain ⟨y, m, d⟩ := dt
  obtain ⟨hm1, hm2, hd1, hd2⟩ := hv
  replace hm1 : 1 ≤ m := hm1
  replace hm2 : m ≤ 12 := hm2
  replace hd1 : 1 ≤ d := hd1
  replace hd2 : d ≤ daysInMonth y m := hd2
  replace hpos : 0 < daysBeforeYear y + daysBeforeMonth y m + (d - 1) := hpos
  by_cases hd : 2 ≤ d
  · have hprev : prevDay ⟨y, m, d⟩ = ⟨y, m, d - 1⟩ := by
      simp [prevDay, hd]
    rw [hprev]
    constructor
    · exact ⟨hm1, hm2, show 1 ≤ d - 1 by omega,
        show d - 1 ≤ daysInMonth y m by omega⟩
    · show daysBeforeYear y + daysBeforeMonth y m + (d - 1 - 1) + 1 =
        daysBeforeYear y + daysBeforeMonth y m + (d - 1)
      omega
  · have hd1' : d = 1 := by omega
    subst hd1'
    by_cases hm : 2 ≤ m
    · have hprev : prevDay ⟨y, m, 1⟩ = ⟨y, m - 1, daysInMonth y (m - 1)⟩ := by
        simp [prevDay, hd, hm]
      rw [hprev]
      constructor
      · exact ⟨show 1 ≤ m - 1 by omega, show m - 1 ≤ 12 by omega,
          show 1 ≤ daysInMonth y (m - 1) from
            daysInMonth_pos _ _ (by omega) (by omega),
          le_refl _⟩
      · show daysBeforeYear y + daysBeforeMonth y (m - 1)
            + (daysInMonth y (m - 1) - 1) + 1 =
          daysBeforeYear y + daysBeforeMonth y m + (1 - 1)
        interval_cases m <;> cases hL : isLeapYear y <;>
          simp [daysBeforeMonth, daysInMonth, leapDay, hL] <;> omega
    · have hm1' : m = 1 := by omega
      subst hm1'
      have hprev : prevDay ⟨y, 1, 1⟩ = ⟨y - 1, 12, 31⟩ := by
        simp [prevDay, hd, hm]
      rw [hprev]
      have hy : 1 ≤ y := by
        by_contra hy0
        have hy' : y = 0 := by omega
        subst hy'
        revert hpos
        show ¬ (0 < daysBeforeYear 0 + daysBeforeMonth 0 1 + (1 - 1))
        decide
      constructor
      · exact ⟨show (1 : Nat) ≤ 12 by decide, show (12 : Nat) ≤ 12 by decide,
          show (1 : Nat) ≤ 31 by decide,
          show (31 : Nat) ≤ daysInMonth (y - 1) 12 from le_refl _⟩
      · have hsucc := daysBeforeYear_succ (y - 1)
        have hyy : y - 1 + 1 = y := by omega
        rw [hyy] at hsucc
        show daysBeforeYear (y - 1) + daysBeforeMonth (y - 1) 12 + (31 - 1) + 1 =
          daysBeforeYear y + daysBeforeMonth y 1 + (1 - 1)
        cases hL : isLeapYear (y - 1) <;>
          simp [hL, daysBeforeMonth, leapDay] at hsucc ⊢ <;> omega

theorem subDays_correct (n : Nat) (dt : CivilDate) (hv : Valid dt)
    (hn : n ≤ toDayNumber dt) :
    Valid (subDays dt n) ∧ toDayNumber (subDays dt n) + n = toDayNumber dt := by
  induction n generalizing dt with
  | zero => simpa [subDays] using hv
  | succ k ih =>
    have hpos : 0 < toDayNumber dt := by omega
    obtain ⟨hv', heq⟩ := prevDay_correct dt hv hpos
    have hk : k ≤ toDayNumber (prevDay dt) := by omega
    obtain ⟨hv'', heq'⟩ := ih (prevDay dt) hv' hk
    exact ⟨by simpa [subDays] using hv'', by simp only [subDays]; omega⟩

theorem isDigitChar_digitChar (k : Nat) (h : k < 10) :
    isDigitChar (Nat.digitChar k) = true := by
  interval_cases k <;> decide

theorem digitVal_digitChar (k : Nat) (h : k < 10) :
    digitVal (Nat.digitChar k) = k := by
  interval_cases k <;> decide

theorem digitVal_lt_ten (c : Char) (h : isDigitChar c = true) : digitVal c < 10 := by
  simp only [isDigitChar, Bool.and_eq_true, decide_eq_true_eq] at h
  have h0 : Char.toNat '0' = 48 := rfl
  simp only [digitVal, h0]
  omega

theorem subDays_y_le (n : Nat) (dt : CivilDate) : (subDays dt n).y ≤ dt.y := by
  induction n generalizing dt with
  | zero => simp [subDays]
  | succ k ih =>
    have h1 := ih (prevDay dt)
    have h2 : (prevDay dt).y ≤ dt.y := by
      unfold prevDay
      split
      · exact le_refl _
      · split
        · exact le_refl _
        · exact Nat.sub_le _ _
    have h3 : subDays dt (k + 1) = subDays (prevDay dt) k := by simp [subDays]
    rw [h3]
    exact le_trans h1 h2

theorem daysInMonth_le_31 (y m : Nat) : daysInMonth y m ≤ 31 := by
  unfold daysInMonth
  split <;> first
    | decide
    | (split <;> decide)

theorem parseDate_formatDate (dt : CivilDate) (hv : Valid dt) (hy : dt.y ≤ 9999) :
    parseDate (formatDate dt) = some dt := by
  obtain ⟨y, m, d⟩ := dt
  obtain ⟨hm1, hm2, hd1, hd2⟩ := hv
  replace hm1 : 1 ≤ m := hm1
  replace hm2 : m ≤ 12 := hm2
  replace hd1 : 1 ≤ d := hd1
  replace hd2 : d ≤ daysInMonth y m := hd2
  replace hy : y ≤ 9999 := hy
  have t1 : y / 1000 % 10 < 10 := Nat.mod_lt _ (by decide)
  have t2 : y / 100 % 10 < 10 := Nat.mod_lt _ (by decide)
  have t3 : y / 10 % 10 < 10 := Nat.mod_lt _ (by decide)
  have t4 : y % 10 < 10 := Nat.mod_lt _ (by decide)
  have t5 : m / 10 % 10 < 10 := Nat.mod_lt _ (by decide)
  have t6 : m % 10 < 10 := Nat.mod_lt _ (by decide)
  have t7 : d / 10 % 10 < 10 := Nat.mod_lt _ (by decide)
  have t8 : d % 10 < 10 := Nat.mod_lt _ (by decide)
  have hyv : ((digitVal (Nat.digitChar (y / 1000 % 10)) * 10 +
      digitVal (Nat.digitChar (y / 100 % 10))) * 10 +
      digitVal (Nat.digitChar (y / 10 % 10))) * 10 +
      digitVal (Nat.digitChar (y % 10)) = y := by
    rw [digitVal_digitChar _ t1, digitVal_digitChar _ t2,
      digitVal_digitChar _ t3, digitVal_digitChar _ t4]
    omega
  have hmv : digitVal (Nat.digitChar (m / 10 % 10)) * 10 +
      digitVal (Nat.digitChar (m % 10)) = m := by
    rw [digitVal_digitChar _ t5, digitVal_digitChar _ t6]
    omega
  have hd31 : d ≤ 31 := le_trans hd2 (daysInMonth_le_31 y m)
  have hdv : digitVal (Nat.digitChar (d / 10 % 10)) * 10 +
      digitVal (Nat.digitChar (d % 10)) = d := by
    rw [digitVal_digitChar _ t7, digitVal_digitChar _ t8]
    omega
  simp only [formatDate, pad4, pad2, List.cons_append, List.nil_append, parseDate]
  simp only [String.toList]
  simp only [isDigitChar_digitChar _ t1, isDigitChar_digitChar _ t2,
    isDigitChar_digitChar _ t3, isDigitChar_digitChar _ t4,
    isDigitChar_digitChar _ t5, isDigitChar_digitChar _ t6,
    isDigitChar_digitChar _ t7, isDigitChar_digitChar _ t8,
    Bool.true_and, Bool.and_true, beq_self_eq_true, if_true]
  simp only [hyv, hmv, hdv]
  rw [if_pos (by simp only [Bool.and_eq_true, decide_eq_true_eq]; exact ⟨⟨⟨hm1, hm2⟩, hd1⟩, hd2⟩)]

theorem parseDate_valid (s : String) (dt : CivilDate) (h : parseDate s = some dt) :
    Valid dt ∧ dt.y ≤ 9999 := by
  unfold parseDate at h
  split at h
  case h_2 => exact absurd h (by simp)
  case h_1 y1 y2 y3 y4 h1 m1 m2 h2 d1 d2 heq =>
    split at h
    case isFalse => exact absurd h (by simp)
    case isTrue hcond =>
      split at h
      case isFalse => exact absurd h (by simp)
      case isTrue hbound =>
        injection h with h
        subst h
        simp only [Bool.and_eq_true, decide_eq_true_eq, beq_iff_eq] at hcond hbound
        obtain ⟨⟨⟨⟨⟨⟨⟨⟨⟨hy1, hy2⟩, hy3⟩, hy4⟩, -⟩, hc5⟩, hc6⟩, -⟩, hc8⟩, hc9⟩ := hcond
        have b1 := digitVal_lt_ten _ hy1
        have b2 := digitVal_lt_ten _ hy2
        have b3 := digitVal_lt_ten _ hy3
        have b4 := digitVal_lt_ten _ hy4
        obtain ⟨⟨⟨hb1, hb2⟩, hb3⟩, hb4⟩ := hbound
        exact ⟨⟨hb1, hb2, hb3, hb4⟩,
          show ((digitVal y1 * 10 + digitVal y2) * 10 + digitVal y3) * 10 +
            digitVal y4 ≤ 9999 by omega⟩

/-- Main characterisation of `getStartDate` on parsable end dates at
least 8 days after 0000-01-01 (below that, an ECMAScript `Date` leaves
the `YYYY-MM-DD`-representable range and `toISOString` would switch to
the expanded-year format, outside this model's domain). -/
theorem getStartDate_spec (E : String) (dt : CivilDate)
    (hp : parseDate E = some dt) (h8 : 8 ≤ toDayNumber dt) :
    getStartDate E = some (formatDate (subDays dt 8)) ∧
    parseDate (formatDate (subDays dt 8)) = some (subDays dt 8) ∧
    Valid (subDays dt 8) ∧
    toDayNumber (subDays dt 8) + 8 = toDayNumber dt := by
  obtain ⟨hv, hy⟩ := parseDate_valid E dt hp
  obtain ⟨hv', hnum⟩ := subDays_correct 8 dt hv h8
  have hy' : (subDays dt 8).y ≤ 9999 := le_trans (subDays_y_le 8 dt) hy
  refine ⟨?_, parseDate_formatDate _ hv' hy', hv', hnum⟩
  show (parseDate E).map _ = _
  rw [hp]
  rfl

/-! ## Lemmas about the filter-and-sort pipeline -/

/-- The window predicate of line 98 of script.js. -/
theorem filterAndSort_perm (cache : List Entry) (startS endS : String) :
    List.Perm (filterAndSort cache startS endS)
      (cache.filter (fun item =>
        jsStringLe startS item.date && jsStringLe item.date endS)) :=
  List.perm_insertionSort dateDesc _

theorem filterAndSort_mem (cache : List Entry) (startS endS : String) (item : Entry) :
    item ∈ filterAndSort cache startS endS ↔
      item ∈ cache ∧ jsStringLe startS item.date = true ∧
        jsStringLe item.date endS = true := by
  rw [(filterAndSort_perm cache startS endS).mem_iff, List.mem_filter,
    Bool.and_eq_true]

theorem filterAndSort_sorted (cache : List Entry) (startS endS : String) :
    List.Pairwise (fun a b => dateValue b.date ≤ dateValue a.date)
      (filterAndSort cache startS endS) :=
  List.sorted_insertionSort dateDesc
    (cache.filter (fun item =>
      jsStringLe startS item.date && jsStringLe item.date endS))

/-- Stability: within any one date, the sorted output lists the
entries in their original cache order. -/
theorem filterAndSort_stable (cache : List Entry) (startS endS d : String) :
    (filterAndSort cache startS endS).filter (fun e => e.date == d) =
      (cache.filter (fun item =>
        jsStringLe startS item.date && jsStringLe item.date endS)).filter
        (fun e => e.date == d) := by
  set F := cache.filter (fun item =>
    jsStringLe startS item.date && jsStringLe item.date endS) with hF
  have hpair : (F.filter (fun e => e.date == d)).Pairwise dateDesc := by
    apply List.pairwise_of_forall_mem_list
    intro a ha b hb
    have hda : a.date = d := by
      simpa using (List.mem_filter.mp ha).2
    have hdb : b.date = d := by
      simpa using (List.mem_filter.mp hb).2
    show dateValue b.date ≤ dateValue a.date
    rw [hda, hdb]
  have hsub : List.Sublist (F.filter (fun e => e.date == d))
      (List.insertionSort dateDesc F) :=
    List.sublist_insertionSort hpair (List.filter_sublist F)
  have hself : (F.filter (fun e => e.date == d)).filter (fun e => e.date == d) =
      F.filter (fun e => e.date == d) := by
    rw [List.filter_eq_self]
    intro a ha
    exact (List.mem_filter.mp ha).2
  have hsub2 : List.Sublist (F.filter (fun e => e.date == d))
      ((List.insertionSort dateDesc F).filter (fun e => e.date == d)) := by
    rw [← hself]
    exact List.Sublist.filter _ hsub
  have hperm : ((List.insertionSort dateDesc F).filter (fun e => e.date == d)).length =
      (F.filter (fun e => e.date == d)).length :=
    ((List.perm_insertionSort dateDesc F).filter _).length_eq
  exact (hsub2.eq_of_length hperm.symm).symm

/-! ## The claims -/

/-- Claim C2: for every valid end date string `E`, the computed start
date is exactly 8 calendar days before `E`, and the inclusive window
`[startDate, endDate]` spans exactly `GALLERY_DAYS = 9` calendar days.
(Stated for end dates at least 8 days after 0000-01-01, the domain in
which the result is still a plain `YYYY-MM-DD` string.) -/
theorem C2_start_date_eq_minus_8 (E : String) (dt : CivilDate)
    (hp : parseDate E = some dt) (h8 : 8 ≤ toDayNumber dt) :
    ∃ startStr startDt, getStartDate E = some startStr ∧
      parseDate startStr = some startDt ∧ Valid startDt ∧
      toDayNumber startDt + (GALLERY_DAYS - 1) = toDayNumber dt ∧
      toDayNumber dt + 1 - toDayNumber startDt = GALLERY_DAYS := by
  obtain ⟨h1, h2, h3, h4⟩ := getStartDate_spec E dt hp h8
  refine ⟨_, _, h1, h2, h3, ?_, ?_⟩ <;> simp only [GALLERY_DAYS] <;> omega

/-- Witness for C2 at the concrete end date 2024-01-09. -/
theorem C2_start_date_witness :
    ∃ startStr startDt, getStartDate "2024-01-09" = some startStr ∧
      parseDate startStr = some startDt ∧ Valid startDt ∧
      toDayNumber startDt + (GALLERY_DAYS - 1) = toDayNumber ⟨2024, 1, 9⟩ ∧
      toDayNumber ⟨2024, 1, 9⟩ + 1 - toDayNumber startDt = GALLERY_DAYS :=
  C2_start_date_eq_minus_8 "2024-01-09" ⟨2024, 1, 9⟩ (by decide) (by decide)

/-- Claim C3: the filter selects exactly the cached entries whose date
lies in `[startDate, endDate]` under string comparison of the ISO date
strings, where `startDate` is the computed start of the window ending
on `E` — exactly, both as a multiset (permutation) and memberwise. -/
theorem C3_filter_window (cache : List Entry) (E startStr : String)
    (hs : getStartDate E = some startStr) :
    List.Perm (filterAndSort cache startStr E)
      (cache.filter (fun item =>
        jsStringLe startStr item.date && jsStringLe item.date E)) ∧
    ∀ item, item ∈ filterAndSort cache startStr E ↔
      item ∈ cache ∧ jsStringLe startStr item.date = true ∧
        jsStringLe item.date E = true :=
  ⟨filterAndSort_perm cache startStr E,
    fun item => filterAndSort_mem cache startStr E item⟩

/-- Witness for C3 on the ten-entry dataset with window ending 2024-01-09. -/
theorem C3_filter_window_witness :
    List.Perm (filterAndSort cacheTen "2024-01-01" "2024-01-09")
      (cacheTen.filter (fun item =>
        jsStringLe "2024-01-01" item.date && jsStringLe item.date "2024-01-09")) ∧
    ∀ item, item ∈ filterAndSort cacheTen "2024-01-01" "2024-01-09" ↔
      item ∈ cacheTen ∧ jsStringLe "2024-01-01" item.date = true ∧
        jsStringLe item.date "2024-01-09" = true :=
  C3_filter_window cacheTen "2024-01-09" "2024-01-01" (by decide)

/-- Claim C4: the filtered sequence is sorted non-increasing by date
(most recent first), and among entries of equal date the original cache
order is preserved (the sort is stable). -/
theorem C4_sorted_and_stable (cache : List Entry) (E startStr : String)
    (hs : getStartDate E = some startStr) :
    List.Pairwise (fun a b => dateValue b.date ≤ dateValue a.date)
      (filterAndSort cache startStr E) ∧
    ∀ d : String,
      (filterAndSort cache startStr E).filter (fun e => e.date == d) =
        (cache.filter (fun item =>
          jsStringLe startStr item.date && jsStringLe item.date E)).filter
          (fun e => e.date == d) :=
  ⟨filterAndSort_sorted cache startStr E,
    fun d => filterAndSort_stable cache startStr E d⟩

/-- Witness for C4 on the dataset with a duplicated date 2024-01-05. -/
theorem C4_sorted_and_stable_witness :
    List.Pairwise (fun a b => dateValue b.date ≤ dateValue a.date)
      (filterAndSort cacheDup "2024-01-01" "2024-01-09") ∧
    ∀ d : String,
      (filterAndSort cacheDup "2024-01-01" "2024-01-09").filter (fun e => e.date == d) =
        (cacheDup.filter (fun item =>
          jsStringLe "2024-01-01" item.date && jsStringLe item.date "2024-01-09")).filter
          (fun e => e.date == d) :=
  C4_sorted_and_stable cacheDup "2024-01-09" "2024-01-01" (by decide)

/-- Claim C5: when the filter yields fewer than `GALLERY_DAYS = 9`
entries, no gallery content is rendered (the gallery is left empty and
hidden) and the error banner shows the message reporting the exact
count found. -/
theorem C5_insufficient_data (E startStr : String) (s : AppState)
    (hs : getStartDate E = some startStr)
    (hlen : (filterAndSort s.allAPODData startStr E).length < GALLERY_DAYS) :
    (filterAndRenderGallery E s).ui.errorHidden = false ∧
    (filterAndRenderGallery E s).ui.errorText =
      insufficientMsg (filterAndSort s.allAPODData startStr E).length ∧
    (filterAndRenderGallery E s).ui.gallery = [] ∧
    (filterAndRenderGallery E s).ui.galleryHidden = true := by
  simp only [filterAndRenderGallery, hs]
  rw [if_pos hlen]
  simp [updateUIState]

/-- Witness for C5: an empty cache yields the zero-count error. -/
theorem C5_insufficient_data_witness :
    (filterAndRenderGallery "2024-01-09"
      { allAPODData := [], ui := uiBlank }).ui.errorHidden = false ∧
    (filterAndRenderGallery "2024-01-09"
      { allAPODData := [], ui := uiBlank }).ui.errorText =
      insufficientMsg (filterAndSort [] "2024-01-01" "2024-01-09").length ∧
    (filterAndRenderGallery "2024-01-09"
      { allAPODData := [], ui := uiBlank }).ui.gallery = [] ∧
    (filterAndRenderGallery "2024-01-09"
      { allAPODData := [], ui := uiBlank }).ui.galleryHidden = true :=
  C5_insufficient_data "2024-01-09" "2024-01-01"
    { allAPODData := [], ui := uiBlank } (by decide) (by decide)

/-- Claim C9: the filter-and-render operation never mutates the
in-memory dataset cache: `allAPODData` after the call equals
`allAPODData` before it, for every end-date string and every state
(`Array.prototype.filter` copies, and `sort` mutates only that copy). -/
theorem C9_cache_unchanged (E : String) (s : AppState) :
    (filterAndRenderGallery E s).allAPODData = s.allAPODData := by
  unfold filterAndRenderGallery
  cases getStartDate E
  · rfl
  · dsimp only
    split
    · rfl
    · rfl

/-- Claim C10: `getStartDate` is total on strings that parse as valid
calendar dates (in the modelled `YYYY-MM-DD` range) and returns a valid
`YYYY-MM-DD` date string, while a non-date input string makes it throw
(`none` models the `RangeError` of `toISOString` on an Invalid Date),
so validity of the end date is a genuine precondition. -/
theorem C10_getStartDate_totality :
    (∀ (s : String) (dt : CivilDate), parseDate s = some dt →
      8 ≤ toDayNumber dt →
      ∃ out outDt, getStartDate s = some out ∧ parseDate out = some outDt ∧
        Valid outDt) ∧
    getStartDate "not-a-date" = none := by
  constructor
  · intro s dt hp h8
    obtain ⟨h1, h2, h3, -⟩ := getStartDate_spec s dt hp h8
    exact ⟨_, _, h1, h2, h3⟩
  · decide

/-- Witness for C10 at the concrete end date 2024-01-09. -/
theorem C10_getStartDate_witness :
    ∃ out outDt, getStartDate "2024-01-09" = some out ∧
      parseDate out = some outDt ∧ Valid outDt :=
  C10_getStartDate_totality.1 "2024-01-09" ⟨2024, 1, 9⟩ (by decide) (by decide)

/-- Claim C1 counterexample: a cache holding ten entries inside the
9-day window ending 2024-01-09 (two entries share the date 2024-01-05)
makes the filter yield 10 ≥ `GALLERY_DAYS` qualifying entries, yet the
render produces 10 tiles, not exactly 9 — the code renders every
filtered entry and never truncates to 9. -/
theorem C1_exactly_nine_counterexample :
    getStartDate "2024-01-09" = some "2024-01-01" ∧
    GALLERY_DAYS ≤ (filterAndSort cacheDup "2024-01-01" "2024-01-09").length ∧
    (filterAndRenderGallery "2024-01-09"
        { allAPODData := cacheDup, ui := uiBlank }).ui.gallery.length ≠ GALLERY_DAYS := by
  refine ⟨by decide, by decide, by decide⟩

/-- Claim C1 as amended: when the filter yields at least `GALLERY_DAYS`
qualifying entries, the gallery shows one tile per qualifying entry (so
exactly 9 only when the filter yields exactly 9, as with one entry per
date); no entry outside the window is rendered, and each tile carries
the entry's title and date text. -/
theorem C1_renders_all_window_entries (E startStr : String) (s : AppState)
    (hs : getStartDate E = some startStr)
    (hlen : GALLERY_DAYS ≤ (filterAndSort s.allAPODData startStr E).length) :
    (filterAndRenderGallery E s).ui.gallery =
      renderGallery (filterAndSort s.allAPODData startStr E) ∧
    (filterAndRenderGallery E s).ui.gallery.length =
      (filterAndSort s.allAPODData startStr E).length ∧
    (filterAndRenderGallery E s).ui.galleryHidden = false ∧
    (∀ t ∈ (filterAndRenderGallery E s).ui.gallery, ∃ item,
      item ∈ s.allAPODData ∧ jsStringLe startStr item.date = true ∧
        jsStringLe item.date E = true ∧ t.title = item.title ∧ t.date = item.date) := by
  have key : (filterAndRenderGallery E s).ui.gallery =
      renderGallery (filterAndSort s.allAPODData startStr E) ∧
      (filterAndRenderGallery E s).ui.galleryHidden = false := by
    simp only [filterAndRenderGallery, hs]
    rw [if_neg (by omega)]
    simp [updateUIState]
  obtain ⟨k1, k2⟩ := key
  refine ⟨k1, by rw [k1]; simp [renderGallery], k2, ?_⟩
  intro t ht
  rw [k1] at ht
  simp only [renderGallery, List.mem_map] at ht
  obtain ⟨item, hmem, rfl⟩ := ht
  obtain ⟨hc, h1, h2⟩ := (filterAndSort_mem s.allAPODData startStr E item).mp hmem
  exact ⟨item, hc, h1, h2, rfl, rfl⟩

/-- Witness for the amended C1 on the ten-entry one-per-day dataset:
nine qualifying entries, nine tiles. -/
theorem C1_renders_all_witness :
    (filterAndRenderGallery "2024-01-09"
        { allAPODData := cacheTen, ui := uiBlank }).ui.gallery =
      renderGallery (filterAndSort cacheTen "2024-01-01" "2024-01-09") ∧
    (filterAndRenderGallery "2024-01-09"
        { allAPODData := cacheTen, ui := uiBlank }).ui.gallery.length =
      (filterAndSort cacheTen "2024-01-01" "2024-01-09").length ∧
    (filterAndRenderGallery "2024-01-09"
        { allAPODData := cacheTen, ui := uiBlank }).ui.galleryHidden = false ∧
    (∀ t ∈ (filterAndRenderGallery "2024-01-09"
        { allAPODData := cacheTen, ui := uiBlank }).ui.gallery, ∃ item,
      item ∈ cacheTen ∧ jsStringLe "2024-01-01" item.date = true ∧
        jsStringLe item.date "2024-01-09" = true ∧ t.title = item.title ∧
        t.date = item.date) :=
  C1_renders_all_window_entries "2024-01-09" "2024-01-01"
    { allAPODData := cacheTen, ui := uiBlank } (by decide) (by decide)

/-- Claim C6 counterexample: a video entry whose `thumbnail_url` field
is present with the value `"placeholder"` collides with the sentinel of
line 129 and renders the textual placeholder, not the thumbnail tile
the claim promises for every entry that has a `thumbnail_url`. -/
theorem C6_thumbnail_counterexample :
    tileMedia videoSentinelEntry = TileMedia.videoPlaceholder ∧
    videoSentinelEntry.media_type = "video" ∧
    videoSentinelEntry.thumbnail_url ≠ none := by
  exact ⟨rfl, rfl, by decide⟩

/-- Claim C6 as amended: a gallery tile is the entry's media branch via
`tileMedia`; a video entry with a non-empty `thumbnail_url` different
from the sentinel string `"placeholder"` gets the thumbnail-with-play-
overlay tile; a video entry whose `thumbnail_url` is absent, empty, or
the sentinel `"placeholder"` gets the textual placeholder; every other
entry gets a plain image tile of its non-HD `url`. -/
theorem C6_tile_media_dispatch (data : List Entry) (item : Entry) :
    renderGallery data =
      data.map (fun i => { media := tileMedia i, title := i.title, date := i.date }) ∧
    (item.media_type = "video" → ∀ u, item.thumbnail_url = some u → u ≠ "" →
      u ≠ "placeholder" → tileMedia item = TileMedia.videoThumb u) ∧
    (item.media_type = "video" →
      (item.thumbnail_url = none ∨ item.thumbnail_url = some "" ∨
        item.thumbnail_url = some "placeholder") →
      tileMedia item = TileMedia.videoPlaceholder) ∧
    (item.media_type ≠ "video" → tileMedia item = TileMedia.image item.url) := by
  refine ⟨rfl, ?_, ?_, ?_⟩
  · intro hm u hu hne hnp
    simp [tileMedia, hm, jsOrString, hu, hne, hnp]
  · intro hm hdisj
    rcases hdisj with h | h | h <;> simp [tileMedia, hm, jsOrString, h]
  · intro hm
    simp [tileMedia, hm]

/-- Witness for the amended C6 at a video entry with a real thumbnail. -/
theorem C6_tile_media_witness :
    tileMedia videoThumbEntry = TileMedia.videoThumb "thumb.jpg" :=
  (C6_tile_media_dispatch [] videoThumbEntry).2.1 rfl "thumb.jpg" rfl
    (by decide) (by decide)

/-- Claim C7 counterexample: an image entry whose `hdurl` field is
present but empty is falsy for `item.hdurl || item.url`, so the detail
view shows the non-HD `url`, not the present `hdurl` the claim
promises. -/
theorem C7_hdurl_empty_counterexample :
    (openModal emptyHdurlEntry).media = some (ModalMedia.image "u.jpg") ∧
    emptyHdurlEntry.hdurl = some "" ∧
    ("u.jpg" : String) ≠ "" := by
  exact ⟨rfl, rfl, by decide⟩

/-- Claim C7 as amended: the detail view shows the entry's title, date
and full explanation; a video entry embeds its `url` as an embedded
frame; any other entry shows `hdurl` when it is present and non-empty
and falls back to `url` when `hdurl` is absent or empty. -/
theorem C7_modal_dispatch (item : Entry) :
    (openModal item).title = item.title ∧
    (openModal item).date = item.date ∧
    (openModal item).explanation = item.explanation ∧
    (item.media_type = "video" →
      (openModal item).media = some (ModalMedia.videoEmbed item.url)) ∧
    (item.media_type ≠ "video" →
      (∀ h, item.hdurl = some h → h ≠ "" →
        (openModal item).media = some (ModalMedia.image h)) ∧
      ((item.hdurl = none ∨ item.hdurl = some "") →
        (openModal item).media = some (ModalMedia.image item.url))) := by
  refine ⟨rfl, rfl, rfl, ?_, ?_⟩
  · intro hm
    simp [openModal, hm]
  · intro hm
    constructor
    · intro h hh hne
      simp [openModal, hm, jsOrString, hh, hne]
    · intro hdisj
      rcases hdisj with h | h <;> simp [openModal, hm, jsOrString, h]

/-- Witness for the amended C7 at a video entry: the modal embeds the
video `url`. -/
theorem C7_modal_witness :
    (openModal videoUrlEntry).media = some (ModalMedia.videoEmbed "v.mp4") :=
  (C7_modal_dispatch videoUrlEntry).2.2.2.1 rfl

/-- Claim C8: closing the detail view always clears the embedded media
markup — after `closeModal`, no media element persists in the modal
media container, in particular for every previously opened entry. -/
theorem C8_close_clears_media (item : Entry) (m : ModalState) :
    (closeModal (openModal item)).media = none ∧
    (closeModal m).media = none ∧
    (closeModal m).visible = false :=
  ⟨rfl, rfl, rfl⟩

end APOD
